import Mathlib

/-!
# Verification of the `scraper` backend

A shallow embedding of the parts of the Flask backend
(`backend/services/*.py`, `backend/routes/*.py`, `backend/utils/decorators.py`)
needed to settle the frozen claims, together with theorems settling them.

Conventions of the embedding:
* Python strings are Lean `String`s; `len` is `String.length`.
* Python floats produced by the scoring/rounding code are modelled as `ℚ`;
  `round(x, 3)` is round-half-to-even on the scaled value, as in Python.
* Database tables are lists of records, in insertion order.
* A Python function that may raise is modelled with `PyResult`; a `try/except`
  block maps an inner `exn` outcome to a normal return.
-/

namespace Scraper

/-- Outcome of a Python call: a normal return or a raised exception. -/
inductive PyResult (α : Type) where
  | ok : α → PyResult α
  | exn : String → PyResult α
deriving DecidableEq, Repr

/-- `true` iff the call returned normally (did not raise). -/
def PyResult.isOk {α : Type} : PyResult α → Bool
  | .ok _ => true
  | .exn _ => false

/-- Round-half-to-even of a rational to an integer, as Python's `round`. -/
def roundHalfEven (x : ℚ) : ℤ :=
  if x - ⌊x⌋ < 1 / 2 then ⌊x⌋
  else if 1 / 2 < x - ⌊x⌋ then ⌊x⌋ + 1
  else if ⌊x⌋ % 2 = 0 then ⌊x⌋ else ⌊x⌋ + 1

/-- Python's `round(x, 3)`. -/
def pyRound3 (x : ℚ) : ℚ := (roundHalfEven (x * 1000) : ℚ) / 1000

theorem le_roundHalfEven {n : ℤ} {x : ℚ} (h : (n : ℚ) ≤ x) : n ≤ roundHalfEven x := by
  have hf : n ≤ ⌊x⌋ := by
    have := Int.floor_le_floor h
    simpa using this
  unfold roundHalfEven
  split_ifs <;> omega

theorem roundHalfEven_le {n : ℤ} {x : ℚ} (h : x ≤ (n : ℚ)) : roundHalfEven x ≤ n := by
  have hf : ⌊x⌋ ≤ n := by
    have := Int.floor_le_floor h
    simpa using this
  have hfx : (⌊x⌋ : ℚ) ≤ x := Int.floor_le x
  unfold roundHalfEven
  split_ifs with h1 h2 h3
  · exact hf
  · -- x exceeds its floor by more than 1/2, so the floor is strictly below n
    rcases lt_or_eq_of_le hf with hlt | heq
    · omega
    · exfalso
      have : x - (⌊x⌋ : ℚ) ≤ 0 := by
        rw [heq]
        simpa using sub_nonpos.mpr h
      linarith
  · exact hf
  · rcases lt_or_eq_of_le hf with hlt | heq
    · omega
    · exfalso
      have hhalf : x - (⌊x⌋ : ℚ) = 1 / 2 := le_antisymm (not_lt.mp h2) (not_lt.mp h1)
      have : x - (⌊x⌋ : ℚ) ≤ 0 := by
        rw [heq]
        simpa using sub_nonpos.mpr h
      linarith

theorem pyRound3_le_of_le {x : ℚ} {n : ℤ} (h : x ≤ (n : ℚ)) : pyRound3 x ≤ (n : ℚ) := by
  have h1000 : x * 1000 ≤ ((n * 1000 : ℤ) : ℚ) := by push_cast; linarith
  have h2 : roundHalfEven (x * 1000) ≤ n * 1000 := roundHalfEven_le h1000
  unfold pyRound3
  rw [div_le_iff₀ (by norm_num : (0 : ℚ) < 1000)]
  calc ((roundHalfEven (x * 1000) : ℤ) : ℚ) ≤ ((n * 1000 : ℤ) : ℚ) := by exact_mod_cast h2
    _ = (n : ℚ) * 1000 := by push_cast; ring

theorem le_pyRound3_of_le {x : ℚ} {n : ℤ} (h : (n : ℚ) ≤ x) : (n : ℚ) ≤ pyRound3 x := by
  have h1000 : ((n * 1000 : ℤ) : ℚ) ≤ x * 1000 := by push_cast; linarith
  have h2 : n * 1000 ≤ roundHalfEven (x * 1000) := le_roundHalfEven h1000
  unfold pyRound3
  rw [le_div_iff₀ (by norm_num : (0 : ℚ) < 1000)]
  calc (n : ℚ) * 1000 = ((n * 1000 : ℤ) : ℚ) := by push_cast; ring
    _ ≤ ((roundHalfEven (x * 1000) : ℤ) : ℚ) := by exact_mod_cast h2

/-- Python's `str.isspace()`: non-empty and every character is whitespace. -/
def pyIsSpace (s : String) : Bool := !s.data.isEmpty && s.data.all Char.isWhitespace

/-- `ExtractionRule` data-model row (`models` import of `content_service.py`);
only the fields read by the embedded service code are kept. -/
structure ExtractionRule where
  rule_type : String
  selector : String
  required : Bool
deriving DecidableEq, Repr

/-- `ContentService._calculate_confidence_score` (content_service.py:299-326):
base 0.5; +0.2 for length in [10,500], else +0.1 for length > 500; +0.2 if the
rule is required and content non-empty; +0.1 if content non-empty and not all
whitespace; +0.1 for a css rule whose selector is one of h1/h2/h3/title;
returns `round(min(1.0, score), 3)`. -/
def calculate_confidence_score (content : String) (rule : ExtractionRule) : ℚ :=
  pyRound3 (min 1 (1 / 2
    + (if 10 ≤ content.length ∧ content.length ≤ 500 then 2 / 10
       else if 500 < content.length then 1 / 10 else 0)
    + (if rule.required = true ∧ content ≠ "" then 2 / 10 else 0)
    + (if content ≠ "" ∧ pyIsSpace content = false then 1 / 10 else 0)
    + (if rule.rule_type = "css" ∧ rule.selector ∈ (["h1", "h2", "h3", "title"] : List String)
       then 1 / 10 else 0)))

theorem roundHalfEven_intCast (k : ℤ) : roundHalfEven (k : ℚ) = k := by
  unfold roundHalfEven
  rw [Int.floor_intCast]
  norm_num

/-- Rounding to three decimals is idempotent: the output of `pyRound3` is
already a three-decimal value. -/
theorem pyRound3_idem (x : ℚ) : pyRound3 (pyRound3 x) = pyRound3 x := by
  unfold pyRound3
  rw [div_mul_cancel₀ _ (by norm_num : (1000 : ℚ) ≠ 0), roundHalfEven_intCast]

/-- C6: for every content string and rule, `_calculate_confidence_score`
returns a value in [0, 1] that is already rounded to 3 decimals; and a
required css rule with selector exactly "h1" on non-whitespace content of
length 50 scores 0.5+0.2+0.2+0.1+0.1 = 1.1, clamped to exactly 1.0. -/
theorem confidence_score_bounds (content : String) (rule : ExtractionRule)
    (c : String) (r : ExtractionRule)
    (hlen : c.length = 50) (hsp : pyIsSpace c = false)
    (hty : r.rule_type = "css") (hsel : r.selector = "h1") (hreq : r.required = true) :
    (0 ≤ calculate_confidence_score content rule ∧
     calculate_confidence_score content rule ≤ 1 ∧
     pyRound3 (calculate_confidence_score content rule) =
       calculate_confidence_score content rule) ∧
    calculate_confidence_score c r = 1 := by
  constructor
  · unfold calculate_confidence_score
    set t : ℚ := 1 / 2
      + (if 10 ≤ content.length ∧ content.length ≤ 500 then 2 / 10
         else if 500 < content.length then 1 / 10 else 0)
      + (if rule.required = true ∧ content ≠ "" then 2 / 10 else 0)
      + (if content ≠ "" ∧ pyIsSpace content = false then 1 / 10 else 0)
      + (if rule.rule_type = "css" ∧ rule.selector ∈ (["h1", "h2", "h3", "title"] : List String)
         then 1 / 10 else 0) with ht
    have htpos : 0 ≤ t := by
      rw [ht]
      split_ifs <;> norm_num
    refine ⟨?_, ?_, pyRound3_idem _⟩
    · have h0 : ((0 : ℤ) : ℚ) ≤ min 1 t := le_min (by norm_num) htpos
      simpa using le_pyRound3_of_le h0
    · have h1 : min 1 t ≤ ((1 : ℤ) : ℚ) := by push_cast; exact min_le_left 1 t
      simpa using pyRound3_le_of_le h1
  · have hne : c ≠ "" := by
      intro h
      rw [h] at hlen
      exact absurd hlen (by decide)
    unfold calculate_confidence_score
    rw [if_pos (by rw [hlen]; exact ⟨by norm_num, by norm_num⟩),
       if_pos ⟨hreq, hne⟩, if_pos ⟨hne, hsp⟩,
       if_pos ⟨hty, by rw [hsel]; exact List.mem_cons_self _ _⟩]
    unfold pyRound3 roundHalfEven
    norm_num

/-- Witness for C6 at a concrete 50-character content string and the
h1/css/required rule. -/
theorem confidence_score_bounds_witness :
    (0 ≤ calculate_confidence_score "" ⟨"regex", "x", false⟩ ∧
     calculate_confidence_score "" ⟨"regex", "x", false⟩ ≤ 1 ∧
     pyRound3 (calculate_confidence_score "" ⟨"regex", "x", false⟩) =
       calculate_confidence_score "" ⟨"regex", "x", false⟩) ∧
    calculate_confidence_score (String.mk (List.replicate 50 'a')) ⟨"css", "h1", true⟩ = 1 :=
  confidence_score_bounds "" ⟨"regex", "x", false⟩
    (String.mk (List.replicate 50 'a')) ⟨"css", "h1", true⟩
    (by decide) (by decide) rfl rfl rfl

/-! ## Users, authentication and the admin guard
(`services/auth_service.py`, `utils/decorators.py`, `routes/auth_routes.py`) -/

/-- `User` data-model row. The fields are those read by the embedded service
code. `password` models the stored credential: `check_password` (defined in
`models.py`, whose file is not under `src/`) is modelled from the spec as
verification of the submitted password against the stored salted hash, i.e.
as an equality test against this abstract stored credential. -/
structure User where
  id : Nat
  email : String
  password : String
  role : String
  is_active : Bool
deriving DecidableEq, Repr

/-- `User.check_password` — see the note on `User.password`. -/
def User.check_password (u : User) (pw : String) : Bool := u.password == pw

/-- Python `email.lower().strip()` (normalization applied by the auth code):
lower-case every character, then drop leading and trailing whitespace. -/
def pyLowerStrip (s : String) : String :=
  ⟨(((s.data.map Char.toLower).dropWhile Char.isWhitespace).reverse.dropWhile
      Char.isWhitespace).reverse⟩

/-- `User.query.filter_by(email=...).first()` over the users table. -/
def findUserByEmail (users : List User) (email : String) : Option User :=
  users.find? (fun u => u.email == email)

/-- `User.query.get(user_id)`. -/
def findUserById (users : List User) (uid : Nat) : Option User :=
  users.find? (fun u => u.id == uid)

/-- `AuthService.get_user_by_id` (auth_service.py:148-158): returns the user
only when it exists *and* is active; an inactive user yields `None`. -/
def get_user_by_id (users : List User) (uid : Nat) : Option User :=
  match findUserById users uid with
  | some u => if u.is_active then some u else none
  | none => none

/-- Outcome of a route guard: pass through to the handler, or an error
response with an HTTP status code and message. -/
inductive GuardResult where
  | proceed : GuardResult
  | fail : Nat → String → GuardResult
deriving DecidableEq, Repr

/-- `admin_required` (decorators.py:9-58): the guard around admin routes.
`identity` is the JWT identity (`None` when the token carries none). -/
def admin_required (users : List User) (identity : Option Nat) : GuardResult :=
  match identity with
  | none => .fail 401 "Authorization token required"
  | some uid =>
    match get_user_by_id users uid with
    | none => .fail 404 "User not found"
    | some u =>
      if !u.is_active then .fail 403 "Account is deactivated"
      else if u.role != "admin" then .fail 403 "Admin access required"
      else .proceed

/-- Result of `AuthService.authenticate_user`: the success dict (carrying the
authenticated user id) or the failure dict's message. -/
inductive AuthResult where
  | success : Nat → AuthResult
  | failure : String → AuthResult
deriving DecidableEq, Repr

/-- `AuthService.authenticate_user` (auth_service.py:13-68): normalize email,
look up the user; unknown email → "Invalid email or password"; inactive →
"Account is deactivated"; wrong password → "Invalid email or password";
otherwise success (last-login update and token issuance elided — they do not
affect which branch is taken). -/
def authenticate_user (users : List User) (email password : String) : AuthResult :=
  match findUserByEmail users (pyLowerStrip email) with
  | none => .failure "Invalid email or password"
  | some u =>
    if !u.is_active then .failure "Account is deactivated"
    else if !(u.check_password password) then .failure "Invalid email or password"
    else .success u.id

/-- `AuditLog` data-model row (fields used by the embedded code). -/
structure AuditLog where
  user_id : Option Nat
  action_name : String
  ip_address : String
  user_agent : String
deriving DecidableEq, Repr

/-- `AuditService.log_action` (auth_service.py:322-348). The body tries to
add the row and commit; `commitFails = some e` models the database raising
exception `e` during that persistence. The `except` clause catches *any*
exception, logs it, rolls the session back and returns normally — so the
result is a normal return in both cases. -/
def log_action (logs : List AuditLog) (entry : AuditLog)
    (commitFails : Option String) : PyResult (List AuditLog) :=
  match commitFails with
  | none => .ok (logs ++ [entry])
  | some _ => .ok logs

/-- An HTTP response produced by a route: status code, success flag, message. -/
structure HttpResponse where
  status : Nat
  success : Bool
  message : String
deriving DecidableEq, Repr

/-- The `/api/auth/login` route (auth_routes.py:9-61), from the point where
the request body has been validated: authenticate, audit the outcome, and
return the JSON response. If `log_action` raised, the route's outer
`except` would return the generic 500 — the branch exists in the model so
that the best-effort property of `log_action` is what keeps it dead. -/
def login_route (users : List User) (email password : String)
    (logs : List AuditLog) (ip ua : String) (commitFails : Option String) :
    HttpResponse × List AuditLog :=
  match authenticate_user users email password with
  | .success uid =>
    match log_action logs ⟨some uid, "login", ip, ua⟩ commitFails with
    | .ok logs2 => (⟨200, true, "Login successful"⟩, logs2)
    | .exn _ => (⟨500, false, "Login failed"⟩, logs)
  | .failure msg =>
    match log_action logs ⟨none, "login_failed", ip, ua⟩ commitFails with
    | .ok logs2 => (⟨401, false, msg⟩, logs2)
    | .exn _ => (⟨500, false, "Login failed"⟩, logs)

/-- C1: the code, not the claim. An existing but inactive user record is
mapped to `None` by `AuthService.get_user_by_id`, so `admin_required`
answers 404 "User not found" for it — the decorator's own
403 "Account is deactivated" branch (decorators.py:34-39) is unreachable. -/
theorem admin_required_inactive_user_404 :
    findUserById [⟨7, "admin@example.com", "pw", "admin", false⟩] 7 =
      some ⟨7, "admin@example.com", "pw", "admin", false⟩ ∧
    get_user_by_id [⟨7, "admin@example.com", "pw", "admin", false⟩] 7 = none ∧
    admin_required [⟨7, "admin@example.com", "pw", "admin", false⟩] (some 7) =
      .fail 404 "User not found" :=
  ⟨rfl, rfl, rfl⟩

/-- C2, counterexample: an inactive account submitted with a *wrong* password
is answered "Account is deactivated", not the claimed uniform
"Invalid email or password". -/
theorem authenticate_inactive_wrong_password_message :
    User.check_password ⟨3, "user@example.com", "secret", "user", false⟩ "wrong" = false ∧
    authenticate_user [⟨3, "user@example.com", "secret", "user", false⟩]
      "user@example.com" "wrong" = .failure "Account is deactivated" :=
  ⟨rfl, rfl⟩

/-- C2, amended: "Invalid email or password" is returned exactly when the
normalized email is unknown or an *active* user's password mismatches; the
inactive check precedes password verification, so "Account is deactivated"
is returned exactly when the looked-up account is inactive, regardless of
the submitted password. -/
theorem authenticate_user_failure_messages (users : List User) (email password : String) :
    (authenticate_user users email password = .failure "Invalid email or password" ↔
      (findUserByEmail users (pyLowerStrip email) = none ∨
       ∃ u, findUserByEmail users (pyLowerStrip email) = some u ∧
         u.is_active = true ∧ u.check_password password = false)) ∧
    (authenticate_user users email password = .failure "Account is deactivated" ↔
      ∃ u, findUserByEmail users (pyLowerStrip email) = some u ∧ u.is_active = false) := by
  cases h : findUserByEmail users (pyLowerStrip email) with
  | none => simp [authenticate_user, h]
  | some u =>
    rcases ha : u.is_active <;> rcases hp : u.check_password password <;>
      simp [authenticate_user, h, ha, hp]

/-- C5: `AuditService.log_action` returns normally whatever the persistence
outcome, and consequently a login whose audit write fails still produces the
normal 200 success response. -/
theorem audit_log_best_effort (logs : List AuditLog) (entry : AuditLog) (cf : Option String)
    (users : List User) (email password ip ua : String) (uid : Nat)
    (hauth : authenticate_user users email password = .success uid) :
    (log_action logs entry cf).isOk = true ∧
    (login_route users email password logs ip ua cf).1 = ⟨200, true, "Login successful"⟩ := by
  refine ⟨?_, ?_⟩
  · cases cf <;> rfl
  · unfold login_route
    rw [hauth]
    cases cf <;> rfl

/-- Witness for C5: a failing audit commit, a user whose login succeeds. -/
theorem audit_log_best_effort_witness :
    (log_action [] ⟨some 1, "login", "127.0.0.1", "ua"⟩ (some "log table unavailable")).isOk
        = true ∧
    (login_route [⟨1, "a@b.com", "pw", "user", true⟩] "a@b.com" "pw" []
        "127.0.0.1" "ua" (some "log table unavailable")).1 =
      ⟨200, true, "Login successful"⟩ :=
  audit_log_best_effort [] ⟨some 1, "login", "127.0.0.1", "ua"⟩ (some "log table unavailable")
    [⟨1, "a@b.com", "pw", "user", true⟩] "a@b.com" "pw" "127.0.0.1" "ua" 1 rfl

/-! ## Project statistics (`services/project_service.py`) -/

/-- The snippets block of `ProjectService.get_project_statistics`
(project_service.py:526-539). The SQL `count(nullif(status, v))` counts the
rows whose status is *different from* `v`; the input list holds the status
strings of the project's snippets in insertion order. The code computes
`total`, `reviewed = count(nullif(status,'pending'))`,
`approved_snippets = count(nullif(status,'approved'))`, and reports
`pending = total - reviewed`, `approved = approved_snippets`,
`rejected = reviewed - approved_snippets` (Python int arithmetic). -/
structure SnippetStats where
  total : Nat
  pending : ℤ
  approved : Nat
  rejected : ℤ
deriving DecidableEq, Repr

/-- See `SnippetStats`. -/
def snippet_statistics (statuses : List String) : SnippetStats :=
  let total := statuses.length
  let reviewed := (statuses.filter (fun s => s != "pending")).length
  let approvedNonNull := (statuses.filter (fun s => s != "approved")).length
  { total := total
    pending := (total : ℤ) - reviewed
    approved := approvedNonNull
    rejected := (reviewed : ℤ) - approvedNonNull }

/-- C3: the code, not the claim. For a project with a single snippet of
status "approved", the statistics block reports `approved = 0` and
`rejected = 1`, while the true partition has one approved and no rejected
snippet — `count(nullif(status, 'approved'))` counts the *non*-approved
rows yet is reported under the key `approved`. -/
theorem snippet_stats_single_approved :
    (snippet_statistics ["approved"]).approved = 0 ∧
    (snippet_statistics ["approved"]).rejected = 1 ∧
    (snippet_statistics ["approved"]).pending = 0 ∧
    (snippet_statistics ["approved"]).total = 1 ∧
    (["approved"].filter (fun s => s == "approved")).length = 1 ∧
    (["approved"].filter (fun s => s == "rejected")).length = 0 := by
  refine ⟨rfl, rfl, rfl, rfl, rfl, rfl⟩

/-! ## Content extraction context (`services/content_service.py`) -/

/-- The context capture of `ContentService._extract_with_css`
(content_service.py:144-148) and `_extract_with_xpath` (196-200):
`if len(context) > 500: context = context[:500] + "..."`. -/
def truncate_context (context : String) : String :=
  if 500 < context.length then ⟨context.data.take 500⟩ ++ "..." else context

set_option maxRecDepth 4096 in
/-- C9, counterexample: a 501-character parent markup is stored with length
503 (500 characters plus the appended "..." marker), exceeding 500. -/
theorem context_truncation_exceeds_500 :
    (truncate_context (String.mk (List.replicate 501 'a'))).length = 503 ∧
    ¬((truncate_context (String.mk (List.replicate 501 'a'))).length ≤ 500) := by
  refine ⟨by decide, by decide⟩

/-- C9, amended: a context of at most 500 characters is stored unchanged;
a longer one is cut to its first 500 characters with "..." appended, so the
stored context length is exactly 503 in that case — at most 503 overall,
not at most 500. -/
theorem context_truncation_length (context : String) :
    (truncate_context context).length =
      if 500 < context.length then 503 else context.length := by
  unfold truncate_context
  split_ifs with h
  · show (String.append ⟨context.data.take 500⟩ "...").length = 503
    have hlen : context.data.length = context.length := rfl
    simp only [String.append, String.length, List.length_append, List.length_take]
    have : min 500 context.data.length = 500 := by omega
    rw [this]
    rfl
  · rfl

/-! ## Scraping and change detection (`services/scraping_service.py`) -/

/-- `Page` data-model row (fields driving change detection). Rows are kept in
insertion order, so "most recent" is "last". -/
structure Page where
  website_id : Nat
  url : String
  hash_content : String
deriving DecidableEq, Repr

/-- Result of one `scrape_single_page` call: the page table afterwards,
whether a new row was inserted, whether the AI-analysis block ran, and the
page returned to the caller. -/
structure ScrapeOutcome where
  db : List Page
  createdNew : Bool
  aiRan : Bool
  page : Page
deriving DecidableEq, Repr

/-- The change-detection core of `ScrapingService.scrape_single_page`
(scraping_service.py:141-201), after a successful fetch of `html`:
compute `sha256(html)`; if a page row with the same (website_id, url, hash)
exists, return it unchanged (no insert, no AI block); otherwise insert a new
row and run the AI block when the service is available. `sha256` is the
digest function, abstract here; `aiAvailable` models
`ai_service.is_available() and extracted_text`. -/
def scrape_single_page (sha256 : String → String) (db : List Page)
    (website_id : Nat) (url html : String) (aiAvailable : Bool) : ScrapeOutcome :=
  match db.find? (fun p =>
      p.website_id == website_id && p.url == url && p.hash_content == sha256 html) with
  | some existing => ⟨db, false, false, existing⟩
  | none =>
    ⟨db ++ [⟨website_id, url, sha256 html⟩], true, aiAvailable,
      ⟨website_id, url, sha256 html⟩⟩

/-- The most recently stored page row for a (website_id, url) key: the last
matching row in insertion order. -/
def mostRecentPage (db : List Page) (website_id : Nat) (url : String) : Option Page :=
  (db.filter (fun p => p.website_id == website_id && p.url == url)).getLast?

/-- C4: change-detection idempotence. When a call inserted a new row
(`createdNew`), the table grew by exactly one row, the hash differed from the
most recent stored hash for that (website_id, url), and a second call with
byte-identical HTML finds that row: it inserts nothing, leaves the table
unchanged, does not run AI analysis, and returns the same page. -/
theorem scrape_single_page_change_detection (sha256 : String → String) (db : List Page)
    (w : Nat) (u html : String) (ai : Bool)
    (hnew : (scrape_single_page sha256 db w u html ai).createdNew = true) :
    (scrape_single_page sha256 db w u html ai).db.length = db.length + 1 ∧
    (scrape_single_page sha256 (scrape_single_page sha256 db w u html ai).db
        w u html ai).createdNew = false ∧
    (scrape_single_page sha256 (scrape_single_page sha256 db w u html ai).db
        w u html ai).aiRan = false ∧
    (scrape_single_page sha256 (scrape_single_page sha256 db w u html ai).db
        w u html ai).db = (scrape_single_page sha256 db w u html ai).db ∧
    (scrape_single_page sha256 (scrape_single_page sha256 db w u html ai).db
        w u html ai).page = (scrape_single_page sha256 db w u html ai).page ∧
    (mostRecentPage db w u).all (fun p => p.hash_content != sha256 html) = true := by
  cases hf : db.find? (fun p =>
      p.website_id == w && p.url == u && p.hash_content == sha256 html) with
  | some p =>
    rw [scrape_single_page, hf] at hnew
    exact absurd hnew (by simp)
  | none =>
    have hfind2 : (db ++ [(⟨w, u, sha256 html⟩ : Page)]).find? (fun p =>
        p.website_id == w && p.url == u && p.hash_content == sha256 html) =
        some ⟨w, u, sha256 html⟩ := by
      rw [List.find?_append, hf]
      simp
    have hr1 : scrape_single_page sha256 db w u html ai =
        ⟨db ++ [⟨w, u, sha256 html⟩], true, ai, ⟨w, u, sha256 html⟩⟩ := by
      rw [scrape_single_page, hf]
    have hr2 : scrape_single_page sha256 (db ++ [(⟨w, u, sha256 html⟩ : Page)]) w u html ai =
        ⟨db ++ [⟨w, u, sha256 html⟩], false, false, ⟨w, u, sha256 html⟩⟩ := by
      rw [scrape_single_page, hfind2]
    have hnone : ∀ p ∈ db, ¬((fun p : Page =>
        p.website_id == w && p.url == u && p.hash_content == sha256 html) p = true) :=
      List.find?_eq_none.mp hf
    have hrecent : (mostRecentPage db w u).all
        (fun p => p.hash_content != sha256 html) = true := by
      cases hm : mostRecentPage db w u with
      | none => rfl
      | some p =>
        have hpmem : p ∈ db.filter (fun p => p.website_id == w && p.url == u) :=
          List.mem_of_mem_getLast? hm
        rw [List.mem_filter] at hpmem
        have hkey := hpmem.2
        have hnp := hnone p hpmem.1
        simp only [Bool.and_eq_true] at hkey hnp
        simp only [Option.all, bne_iff_ne, ne_eq]
        intro hcontra
        exact hnp ⟨hkey, by simp [hcontra]⟩
    rw [hr1]
    dsimp only
    refine ⟨by simp, ?_, ?_, ?_, ?_, hrecent⟩ <;> rw [hr2]

/-- Witness for C4: an empty page table, identity digest. -/
theorem scrape_single_page_change_detection_witness :
    (scrape_single_page id [] 1 "https://ex.com" "<p>x</p>" true).db.length = 0 + 1 ∧
    (scrape_single_page id (scrape_single_page id [] 1 "https://ex.com" "<p>x</p>" true).db
        1 "https://ex.com" "<p>x</p>" true).createdNew = false ∧
    (scrape_single_page id (scrape_single_page id [] 1 "https://ex.com" "<p>x</p>" true).db
        1 "https://ex.com" "<p>x</p>" true).aiRan = false ∧
    (scrape_single_page id (scrape_single_page id [] 1 "https://ex.com" "<p>x</p>" true).db
        1 "https://ex.com" "<p>x</p>" true).db =
      (scrape_single_page id [] 1 "https://ex.com" "<p>x</p>" true).db ∧
    (scrape_single_page id (scrape_single_page id [] 1 "https://ex.com" "<p>x</p>" true).db
        1 "https://ex.com" "<p>x</p>" true).page =
      (scrape_single_page id [] 1 "https://ex.com" "<p>x</p>" true).page ∧
    (mostRecentPage [] 1 "https://ex.com").all
        (fun p => p.hash_content != id "<p>x</p>") = true :=
  scrape_single_page_change_detection id [] 1 "https://ex.com" "<p>x</p>" true rfl

/-- State of the breadth-first crawl of `ScrapingService.crawl_website`
(scraping_service.py:340-386): the visited-URL set, the FIFO queue of
(url, depth) pairs, the (url, depth) pairs actually passed to
`scrape_single_page` in order, and the running counters. -/
structure CrawlState where
  crawled : List String
  queue : List (String × Nat)
  scraped : List (String × Nat)
  pages_crawled : Nat
  pages_failed : Nat
deriving DecidableEq, Repr

/-- The `while` guard's budget part:
`not max_pages or stats["pages_crawled"] < max_pages` (a `max_pages` of 0 is
falsy in Python, hence no budget). -/
def budgetLeft (maxPages : Option Nat) (n : Nat) : Bool :=
  match maxPages with
  | none => true
  | some mp => mp == 0 || n < mp

/-- The crawl loop of `crawl_website`, by fuel: pop the queue head; stop if
the budget is exhausted; skip already-visited URLs and URLs deeper than the
website's `crawl_depth`; otherwise mark visited and scrape; on success,
links are extracted and enqueued at depth+1 only when `depth < crawl_depth`,
each filtered against the visited set. `ok u` abstracts whether
`scrape_single_page` succeeds on `u`, and `links u` the links
`_extract_links` finds on the fetched page. -/
def crawl_loop (ok : String → Bool) (links : String → List String)
    (crawl_depth : Nat) (maxPages : Option Nat) : Nat → CrawlState → CrawlState
  | 0, st => st
  | fuel + 1, st =>
    match st.queue with
    | [] => st
    | (u, d) :: rest =>
      if !budgetLeft maxPages st.pages_crawled then st
      else if st.crawled.contains u then
        crawl_loop ok links crawl_depth maxPages fuel { st with queue := rest }
      else if crawl_depth < d then
        crawl_loop ok links crawl_depth maxPages fuel { st with queue := rest }
      else if ok u then
        crawl_loop ok links crawl_depth maxPages fuel
          { crawled := u :: st.crawled
            queue := rest ++ (if d < crawl_depth then
                (links u).filter (fun l => !(u :: st.crawled).contains l) else []).map
                  (fun l => (l, d + 1))
            scraped := st.scraped ++ [(u, d)]
            pages_crawled := st.pages_crawled + 1
            pages_failed := st.pages_failed }
      else
        crawl_loop ok links crawl_depth maxPages fuel
          { crawled := u :: st.crawled
            queue := rest
            scraped := st.scraped ++ [(u, d)]
            pages_crawled := st.pages_crawled
            pages_failed := st.pages_failed + 1 }

/-- `crawl_website`'s traversal, seeded with the website root at depth 0. -/
def crawl_website (ok : String → Bool) (links : String → List String)
    (root : String) (crawl_depth : Nat) (maxPages : Option Nat) (fuel : Nat) : CrawlState :=
  crawl_loop ok links crawl_depth maxPages fuel ⟨[], [(root, 0)], [], 0, 0⟩

/-- C8: if every queue entry and every already-scraped entry respects the
depth bound, then after any number of loop steps every scraped URL was
dequeued at depth ≤ `crawl_depth` and every queue entry — in particular
every link ever enqueued — has depth ≤ `crawl_depth`. Links found on a page
at depth `crawl_depth` are never enqueued (enqueueing happens only when
`depth < crawl_depth`, at depth+1 ≤ `crawl_depth`). -/
theorem crawl_depth_never_exceeded (ok : String → Bool) (links : String → List String)
    (crawl_depth : Nat) (maxPages : Option Nat) (fuel : Nat) (st : CrawlState)
    (hq : st.queue.all (fun e => decide (e.2 ≤ crawl_depth)) = true)
    (hs : st.scraped.all (fun e => decide (e.2 ≤ crawl_depth)) = true) :
    (crawl_loop ok links crawl_depth maxPages fuel st).scraped.all
        (fun e => decide (e.2 ≤ crawl_depth)) = true ∧
    (crawl_loop ok links crawl_depth maxPages fuel st).queue.all
        (fun e => decide (e.2 ≤ crawl_depth)) = true := by
  induction fuel generalizing st with
  | zero => exact ⟨hs, hq⟩
  | succ n ih =>
    cases hqu : st.queue with
    | nil =>
      rw [crawl_loop, hqu]
      exact ⟨hs, hq⟩
    | cons hd rest =>
      obtain ⟨u, d⟩ := hd
      rw [hqu] at hq
      simp only [List.all_cons, Bool.and_eq_true, decide_eq_true_eq] at hq
      obtain ⟨hd_le, hrest⟩ := hq
      rw [crawl_loop, hqu]
      dsimp only
      split_ifs with h1 h2 h3 h4 h5
      · rw [hqu]
        refine ⟨hs, ?_⟩
        simp only [List.all_cons, Bool.and_eq_true, decide_eq_true_eq]
        exact ⟨hd_le, hrest⟩
      · apply ih
        · simpa using hrest
        · simpa using hs
      · apply ih
        · simpa using hrest
        · simpa using hs
      · apply ih
        · simp only [List.all_append, Bool.and_eq_true]
          refine ⟨hrest, ?_⟩
          rw [List.all_eq_true]
          intro e he
          rw [List.mem_map] at he
          obtain ⟨l, hl, rfl⟩ := he
          simpa using h5
        · simp only [List.all_append, Bool.and_eq_true]
          exact ⟨hs, by simp [hd_le]⟩
      · apply ih
        · simpa using hrest
        · simp only [List.all_append, Bool.and_eq_true]
          exact ⟨hs, by simp [hd_le]⟩
      · apply ih
        · simpa using hrest
        · simp only [List.all_append, Bool.and_eq_true]
          exact ⟨hs, by simp [hd_le]⟩

/-- Witness for C8: a concrete depth-1 crawl. The seed page links to "a",
page "a" (crawled at depth 1) links to "b"; the invariant instance is
derived from the theorem, and the final state — computed here — shows "b"
was neither enqueued nor scraped. -/
theorem crawl_depth_never_exceeded_witness :
    ((crawl_loop (fun _ => true)
        (fun u => if u == "root" then ["a"] else if u == "a" then ["b"] else [])
        1 none 10 ⟨[], [("root", 0)], [], 0, 0⟩).scraped.all
        (fun e => decide (e.2 ≤ 1)) = true ∧
     (crawl_loop (fun _ => true)
        (fun u => if u == "root" then ["a"] else if u == "a" then ["b"] else [])
        1 none 10 ⟨[], [("root", 0)], [], 0, 0⟩).queue.all
        (fun e => decide (e.2 ≤ 1)) = true) ∧
    crawl_website (fun _ => true)
        (fun u => if u == "root" then ["a"] else if u == "a" then ["b"] else [])
        "root" 1 none 10 =
      ⟨["a", "root"], [], [("root", 0), ("a", 1)], 2, 0⟩ :=
  ⟨crawl_depth_never_exceeded (fun _ => true)
      (fun u => if u == "root" then ["a"] else if u == "a" then ["b"] else [])
      1 none 10 ⟨[], [("root", 0)], [], 0, 0⟩ rfl rfl,
   rfl⟩

/-! ## AI sentiment analysis (`services/azure_openai_service.py`) -/

/-- Python `s.strip()`: drop leading and trailing whitespace. -/
def pyStrip (s : String) : String :=
  ⟨((s.data.dropWhile Char.isWhitespace).reverse.dropWhile Char.isWhitespace).reverse⟩

/-- The chat-completion reply as seen by `analyze_sentiment`'s parsing code:
the request itself failed; or the reply text did not yield a JSON object
with a float-convertible score (a `json.JSONDecodeError` or `ValueError`,
both caught); or it parsed to a numeric `score` (0.0 when the field is
absent) and an `explanation` string. -/
inductive ModelReply where
  | failure : String → ModelReply
  | unparseable : ModelReply
  | parsed : ℚ → String → ModelReply

/-- The sentiment dict: score, explanation, label — in the code's order. -/
structure SentimentResult where
  score : ℚ
  explanation : String
  label : String
deriving DecidableEq, Repr

/-- Outcome of `analyze_sentiment`: the failure dict's error, or a result. -/
inductive SentimentOutcome where
  | failure : String → SentimentOutcome
  | success : SentimentResult → SentimentOutcome
deriving DecidableEq, Repr

/-- `AzureOpenAIService.analyze_sentiment` (azure_openai_service.py:209-282):
reject blank content; on a parsed reply clamp the score with
`max(-1.0, min(1.0, score))`, return it rounded to 3 decimals with the label
computed from the *clamped* value (`positive` if > 0.1, `negative` if
< -0.1, else `neutral`); an unparseable reply falls back to a successful
neutral 0.0 result. (The 4000-character truncation only shortens the prompt
and is elided.) -/
def analyze_sentiment (content : String) (reply : ModelReply) : SentimentOutcome :=
  if pyStrip content = "" then .failure "No content to analyze"
  else
    match reply with
    | .failure e => .failure e
    | .unparseable => .success ⟨0, "Unable to determine sentiment", "neutral"⟩
    | .parsed raw expl =>
      .success ⟨pyRound3 (max (-1) (min 1 raw)), expl,
        if 1 / 10 < max (-1 : ℚ) (min 1 raw) then "positive"
        else if max (-1 : ℚ) (min 1 raw) < -(1 / 10) then "negative"
        else "neutral"⟩

/-- Shared evaluation: a reply score of 0.1004 rounds to a returned score of
exactly 0.1 while the label, computed before rounding, is "positive". -/
theorem sentiment_eval_1004 :
    analyze_sentiment "good" (.parsed (1004 / 10000) "model note") =
      .success ⟨1 / 10, "model note", "positive"⟩ := by
  rw [analyze_sentiment, if_neg (by decide)]
  have hmin : min (1 : ℚ) (1004 / 10000) = 1004 / 10000 := by norm_num
  have hmax : max (-1 : ℚ) (1004 / 10000) = 1004 / 10000 := by norm_num
  rw [hmin, hmax, if_pos (by norm_num : (1 : ℚ) / 10 < 1004 / 10000)]
  have hround : pyRound3 ((1004 : ℚ) / 10000) = 1 / 10 := by
    unfold pyRound3 roundHalfEven
    norm_num
  rw [hround]

/-- C7, counterexample: for the model reply `{"score": 0.1004, ...}` the
call returns score 0.1 labelled "positive", yet 0.1 > 0.1 is false — the
claimed "label is positive iff score > 0.1", read of the returned score,
fails. -/
theorem sentiment_label_rounding_mismatch :
    analyze_sentiment "good" (.parsed (1004 / 10000) "model note") =
      .success ⟨1 / 10, "model note", "positive"⟩ ∧
    ¬((1 : ℚ) / 10 > 1 / 10) :=
  ⟨sentiment_eval_1004, by norm_num⟩

/-- C7, amended: on a parsed reply the returned score is the clamped value
rounded to 3 decimals, lies in [-1, 1], and is itself three-decimal; the
label is determined by the clamped score *before* rounding (`positive` iff
it exceeds 0.1, `negative` iff below -0.1, else `neutral`); and an
unparseable reply still succeeds with a neutral 0.0 result and an
explanatory note. -/
theorem analyze_sentiment_clamp_and_label (content : String) (raw : ℚ) (expl : String)
    (res : SentimentResult)
    (hc : ¬(pyStrip content = ""))
    (hres : analyze_sentiment content (.parsed raw expl) = .success res) :
    res.score = pyRound3 (max (-1) (min 1 raw)) ∧
    -1 ≤ res.score ∧ res.score ≤ 1 ∧ pyRound3 res.score = res.score ∧
    (res.label = "positive" ↔ 1 / 10 < max (-1 : ℚ) (min 1 raw)) ∧
    (res.label = "negative" ↔ max (-1 : ℚ) (min 1 raw) < -(1 / 10)) ∧
    (res.label = "neutral" ↔
      ¬(1 / 10 < max (-1 : ℚ) (min 1 raw)) ∧ ¬(max (-1 : ℚ) (min 1 raw) < -(1 / 10))) ∧
    analyze_sentiment content .unparseable =
      .success ⟨0, "Unable to determine sentiment", "neutral"⟩ := by
  rw [analyze_sentiment, if_neg hc] at hres
  rw [SentimentOutcome.success.injEq] at hres
  subst hres
  set m : ℚ := max (-1) (min 1 raw) with hm
  have hlo : (-1 : ℚ) ≤ m := le_max_left _ _
  have hhi : m ≤ 1 := max_le (by norm_num) (min_le_left _ _)
  refine ⟨rfl, ?_, ?_, pyRound3_idem _, ?_, ?_, ?_, ?_⟩
  · have := le_pyRound3_of_le (n := -1) (by exact_mod_cast hlo)
    exact_mod_cast this
  · have := pyRound3_le_of_le (n := 1) (by exact_mod_cast hhi)
    exact_mod_cast this
  · by_cases h1 : 1 / 10 < m
    · rw [if_pos h1]
      exact iff_of_true rfl h1
    · rw [if_neg h1]
      refine iff_of_false ?_ h1
      by_cases h2 : m < -(1 / 10)
      · rw [if_pos h2]
        simp
      · rw [if_neg h2]
        simp
  · by_cases h1 : 1 / 10 < m
    · rw [if_pos h1]
      refine iff_of_false (by simp) ?_
      intro h2
      linarith
    · rw [if_neg h1]
      by_cases h2 : m < -(1 / 10)
      · rw [if_pos h2]
        exact iff_of_true rfl h2
      · rw [if_neg h2]
        exact iff_of_false (by simp) h2
  · by_cases h1 : 1 / 10 < m
    · rw [if_pos h1]
      exact iff_of_false (by simp) (fun h => h.1 h1)
    · rw [if_neg h1]
      by_cases h2 : m < -(1 / 10)
      · rw [if_pos h2]
        exact iff_of_false (by simp) (fun h => h.2 h2)
      · rw [if_neg h2]
        exact iff_of_true rfl ⟨h1, h2⟩
  · rw [analyze_sentiment, if_neg hc]

/-- Witness for C7 at the 0.1004 reply. -/
theorem analyze_sentiment_clamp_and_label_witness :
    (1 : ℚ) / 10 = pyRound3 (max (-1) (min 1 (1004 / 10000))) ∧
    -1 ≤ (1 : ℚ) / 10 ∧ (1 : ℚ) / 10 ≤ 1 ∧ pyRound3 ((1 : ℚ) / 10) = 1 / 10 ∧
    (("positive" : String) = "positive" ↔ 1 / 10 < max (-1 : ℚ) (min 1 (1004 / 10000))) ∧
    (("positive" : String) = "negative" ↔ max (-1 : ℚ) (min 1 (1004 / 10000)) < -(1 / 10)) ∧
    (("positive" : String) = "neutral" ↔
      ¬(1 / 10 < max (-1 : ℚ) (min 1 (1004 / 10000))) ∧
      ¬(max (-1 : ℚ) (min 1 (1004 / 10000)) < -(1 / 10))) ∧
    analyze_sentiment "good" .unparseable =
      .success ⟨0, "Unable to determine sentiment", "neutral"⟩ :=
  analyze_sentiment_clamp_and_label "good" (1004 / 10000) "model note"
    ⟨1 / 10, "model note", "positive"⟩ (by decide) sentiment_eval_1004

/-! ## Collaborators and project authorization
(`routes/project_routes.py`, `services/project_service.py`,
`services/auth_service.py` AuthorizationService) -/

/-- `Project` data-model row (fields used by the authorization code). -/
structure Project where
  id : Nat
  owner_id : Nat
deriving DecidableEq, Repr

/-- A row of the `project_collaborators` association table. -/
structure ProjectCollaborator where
  user_id : Nat
  project_id : Nat
  role : String
deriving DecidableEq, Repr

/-- Modelled from the spec: `Project.get_collaborator_role` is defined in
`models.py`, which is not under `src/`. Per the spec's ProjectCollaborator
association ("project_id, user_id, role ∈ {owner, collaborator, viewer}"; a
user may hold at most one collaborator role per project; collaborator
listing returns the stored rows with their roles), it returns the stored
role of this user's collaborator row for this project, or None. -/
def get_collaborator_role (collabs : List ProjectCollaborator) (project : Project)
    (uid : Nat) : Option String :=
  (collabs.find? (fun c => c.project_id == project.id && c.user_id == uid)).map
    (fun c => c.role)

/-- `AuthorizationService.can_access_project` (auth_service.py:287-298):
admins, the owner, or any collaborator (any role). -/
def can_access_project (collabs : List ProjectCollaborator) (user : User)
    (project : Project) : Bool :=
  user.role == "admin" || project.owner_id == user.id ||
    (get_collaborator_role collabs project user.id).isSome

/-- `AuthorizationService.can_edit_project` (auth_service.py:300-311):
admins, the owner, or a collaborator whose stored role is "owner" or
"collaborator" (a Python `None` is never in that list). -/
def can_edit_project (collabs : List ProjectCollaborator) (user : User)
    (project : Project) : Bool :=
  user.role == "admin" || project.owner_id == user.id ||
    (match get_collaborator_role collabs project user.id with
     | some r => r == "owner" || r == "collaborator"
     | none => false)

/-- `AuthorizationService.can_delete_project` (auth_service.py:313-319):
admins and the owner only. -/
def can_delete_project (user : User) (project : Project) : Bool :=
  user.role == "admin" || project.owner_id == user.id

/-- The role the `POST /api/projects/{id}/collaborators` route passes on:
`data.get("role", "viewer")` (project_routes.py:215) — "viewer" when the
request body has no `role` field. -/
def requested_role (body_role : Option String) : String := body_role.getD "viewer"

/-- Outcome of `ProjectService.add_collaborator`: an error message, or the
association table after the insert. -/
inductive AddCollaboratorResult where
  | failure : String → AddCollaboratorResult
  | success : List ProjectCollaborator → AddCollaboratorResult
deriving DecidableEq, Repr

/-- `ProjectService.add_collaborator` (project_service.py:292-360), after
the project and the two users have been resolved: require edit permission
on the project, reject an existing collaborator, then insert a row with the
given role. -/
def add_collaborator (collabs : List ProjectCollaborator) (project : Project)
    (requester : User) (target : User) (role : String) : AddCollaboratorResult :=
  if !(can_edit_project collabs requester project) then .failure "Permission denied"
  else if (get_collaborator_role collabs project target.id).isSome then
    .failure "User is already a collaborator"
  else .success (collabs ++ [⟨target.id, project.id, role⟩])

/-- C10: a request body without a `role` field adds the collaborator with
role "viewer"; that stored role grants project access but neither edit nor
delete permission (for a non-admin, non-owner collaborator). -/
theorem default_collaborator_role_viewer
    (collabs : List ProjectCollaborator) (project : Project) (requester target : User)
    (hedit : can_edit_project collabs requester project = true)
    (hfresh : get_collaborator_role collabs project target.id = none)
    (hrole : target.role ≠ "admin") (hown : project.owner_id ≠ target.id) :
    requested_role none = "viewer" ∧
    add_collaborator collabs project requester target (requested_role none) =
      .success (collabs ++ [⟨target.id, project.id, "viewer"⟩]) ∧
    get_collaborator_role (collabs ++ [⟨target.id, project.id, "viewer"⟩])
        project target.id = some "viewer" ∧
    can_access_project (collabs ++ [⟨target.id, project.id, "viewer"⟩])
        target project = true ∧
    can_edit_project (collabs ++ [⟨target.id, project.id, "viewer"⟩])
        target project = false ∧
    can_delete_project target project = false := by
  have hfind : collabs.find? (fun c => c.project_id == project.id &&
      c.user_id == target.id) = none := by
    rw [get_collaborator_role] at hfresh
    exact Option.map_eq_none'.mp hfresh
  have hfind2 : (collabs ++ [(⟨target.id, project.id, "viewer"⟩ : ProjectCollaborator)]).find?
      (fun c => c.project_id == project.id && c.user_id == target.id) =
      some ⟨target.id, project.id, "viewer"⟩ := by
    rw [List.find?_append, hfind]
    simp
  have hrole2 : get_collaborator_role
      (collabs ++ [(⟨target.id, project.id, "viewer"⟩ : ProjectCollaborator)])
      project target.id = some "viewer" := by
    rw [get_collaborator_role, hfind2]
    rfl
  have hroleb : (target.role == "admin") = false := by
    rw [beq_eq_false_iff_ne]
    exact hrole
  have hownb : (project.owner_id == target.id) = false := by
    rw [beq_eq_false_iff_ne]
    exact hown
  refine ⟨rfl, ?_, hrole2, ?_, ?_, ?_⟩
  · rw [add_collaborator, hedit]
    rw [if_neg (by simp), if_neg (by rw [hfresh]; simp)]
    rfl
  · rw [can_access_project, hrole2]
    simp
  · rw [can_edit_project, hrole2, hroleb, hownb]
    rfl
  · rw [can_delete_project, hroleb, hownb]
    rfl

/-- Witness for C10: the owner adds a fresh collaborator with no role field. -/
theorem default_collaborator_role_viewer_witness :
    requested_role none = "viewer" ∧
    add_collaborator [] ⟨1, 10⟩ ⟨10, "o@x.com", "pw", "user", true⟩
        ⟨2, "v@x.com", "pw", "user", true⟩ (requested_role none) =
      .success [⟨2, 1, "viewer"⟩] ∧
    get_collaborator_role [⟨2, 1, "viewer"⟩] ⟨1, 10⟩ 2 = some "viewer" ∧
    can_access_project [⟨2, 1, "viewer"⟩] ⟨2, "v@x.com", "pw", "user", true⟩ ⟨1, 10⟩ = true ∧
    can_edit_project [⟨2, 1, "viewer"⟩] ⟨2, "v@x.com", "pw", "user", true⟩ ⟨1, 10⟩ = false ∧
    can_delete_project ⟨2, "v@x.com", "pw", "user", true⟩ ⟨1, 10⟩ = false :=
  default_collaborator_role_viewer [] ⟨1, 10⟩ ⟨10, "o@x.com", "pw", "user", true⟩
    ⟨2, "v@x.com", "pw", "user", true⟩ rfl rfl (by decide) (by decide)

end Scraper
